import Mathlib

/-!
Shallow embedding of the enrichment pipeline of `src/image.py` (functions
`get_wikidata_info`, `extract_claim_value`, `extract_entity_labels`,
`get_location_details`, and the post-detection part of `analyze_image`).

HTTP calls are modelled by oracle parameters: each outbound request's parsed
response is passed in as an `Option` value, `none` meaning the request raised
an exception (transport error or JSON parse error inside the corresponding
`try` block).  Latitude/longitude are kept as their decimal string renderings:
the source never computes with them, it only interpolates them into strings.
Python's `set` iterates in an unspecified order, so the list the source builds
with `list(filter(None, set(entity_ids)))` is modelled as an explicit `ids`
parameter constrained (in the theorems) to be a permutation of the canonical
first-occurrence de-duplication `pyDistinct`.
-/

set_option maxHeartbeats 1000000

namespace ImagePy

/-- A candidate coordinate pair from the landmark detector.  The components
are the decimal renderings of the floats; the source only formats them. -/
structure Coord where
  latitude : String
  longitude : String
deriving DecidableEq, Repr

/-- A Wikidata claim's `mainsnak.datavalue.value`, as the source inspects it:
a JSON string, an object with a `"time"` member, an object with an `"id"`
member (an entity reference), or any other object. -/
inductive DV where
  | vstr (s : String)
  | vtime (time : String)
  | vid (id : String)
  | vdictOther
deriving DecidableEq, Repr

/-- One element of a `claims` list; `value?` is `mainsnak.datavalue.value`,
`none` when any level of that chain is missing. -/
structure Claim where
  value? : Option DV
deriving DecidableEq, Repr

/-- Python `str.lstrip("+")`: remove all leading plus characters. -/
def lstripPlus (s : String) : String :=
  String.mk (s.data.dropWhile (fun c => c == '+'))

/-- Python `s.split("T")[0]`: everything before the first `T`. -/
def beforeT (s : String) : String :=
  String.mk (s.data.takeWhile (fun c => c != 'T'))

/-- The date projection applied at line 65 of the source:
`value["time"].lstrip("+").split("T")[0]`. -/
def projectTime (t : String) : String := beforeT (lstripPlus t)

/-- `extract_claim_value` (lines 56-68): value of the first claim; with
`is_url` the raw value is passed through, otherwise an object carrying a
`"time"` member is projected to a date string and anything else passes
through unchanged. -/
def extract_claim_value (claims : List Claim) (is_url : Bool) : Option DV :=
  match claims with
  | [] => none
  | c :: _ =>
    match c.value? with
    | none => none
    | some v =>
      if is_url then some v
      else
        match v with
        | DV.vtime t => some (DV.vstr (projectTime t))
        | v' => some v'

/-- One entity of the follow-up label response: its key `qid` and
`labels.en.value` when present. -/
structure LabelEntry where
  qid : String
  enLabel? : Option String
deriving DecidableEq, Repr

/-- Parsed JSON of the follow-up label request. -/
structure LabelsResponse where
  status : Nat
  entities : List LabelEntry
deriving DecidableEq, Repr

/-- The dictionary built at lines 93-95 (later assignments win), queried with
`labels.get(eid, eid)`: the stored value for a present key is
`labels.en.value` defaulting to the key itself, and a missing key falls back
to the raw identifier. -/
def lookupLabel (entries : List LabelEntry) (eid : String) : String :=
  match entries.reverse.find? (fun en => en.qid == eid) with
  | some en => en.enLabel?.getD en.qid
  | none => eid

/-- Whether the id lookup of line 75 raises: `value.get("id")` is called on
the value, which raises `AttributeError` when the value is a plain string. -/
def claimRefIdRaises (c : Claim) : Bool :=
  match c.value? with
  | some (DV.vstr _) => true
  | _ => false

/-- The id lookup of line 75 when it does not raise: `some` only for an
object carrying an `"id"` member. -/
def claimRefId (c : Claim) : Option String :=
  match c.value? with
  | some (DV.vid i) => some i
  | _ => none

/-- The distinct, non-falsy referenced ids of a claims list, written in
first-occurrence order.  The source's `list(filter(None, set(entity_ids)))`
iterates these same elements in the unspecified iteration order of a Python
set, i.e. in some permutation of this list. -/
def pyDistinct (claims : List Claim) : List String :=
  ((claims.filterMap claimRefId).foldl
      (fun acc x => if x ∈ acc then acc else acc ++ [x]) []).filter
    (fun s => s ≠ "")

/-- Result of one `extract_entity_labels` run: the labels it returns and the
`ids` parameter of each follow-up request it issued. -/
structure LabelFetch where
  labels : List String
  requests : List String
deriving DecidableEq, Repr

/-- `extract_entity_labels` (lines 70-99).  `ids` is the list the source
obtains from `list(filter(None, set(entity_ids)))`; `resp` is the parsed
response of the (single) follow-up request, `none` when it raised.  The
`Except.error` case is the `AttributeError` of line 75, which is raised
outside the function's own `try` block and so propagates to the caller. -/
def extract_entity_labels (claims : List Claim) (ids : List String)
    (resp : Option LabelsResponse) : Except Unit LabelFetch :=
  if claims.isEmpty then Except.ok ⟨[], []⟩
  else if claims.any claimRefIdRaises then Except.error ()
  else if ids.isEmpty then Except.ok ⟨[], []⟩
  else
    let req := String.intercalate "|" ids
    match resp with
    | none => Except.ok ⟨[], [req]⟩
    | some r =>
      if r.status ≠ 200 then Except.ok ⟨[], [req]⟩
      else Except.ok ⟨ids.map (lookupLabel r.entities), [req]⟩

/-- The parts of one Wikidata entity the source reads:
`descriptions.en.value` and the four property claim lists. -/
structure EntityData where
  descEn? : Option String
  p571 : List Claim
  p149 : List Claim
  p17 : List Claim
  p856 : List Claim
deriving DecidableEq, Repr

/-- The `{}` default of `entities.get(wikidata_id, {})`. -/
def EntityData.empty : EntityData := ⟨none, [], [], [], []⟩

/-- Parsed JSON of the phase-1 entity request; `entity?` is
`entities.get(wikidata_id, {})`, `none` modelling the `{}` default. -/
structure P1Resp where
  status : Nat
  entity? : Option EntityData
deriving DecidableEq, Repr

/-- The `info` dictionary built at lines 43-49. -/
structure WikidataInfo where
  description : String
  inception_date : Option DV
  architectural_styles : List String
  country : List String
  official_website : Option DV
deriving DecidableEq, Repr

/-- Result of `get_wikidata_info`: `info?` is `none` for the `{}` returned on
any failure; `requests` lists the `ids` parameter of every Wikidata API
request actually issued, in order. -/
structure KGResult where
  info? : Option WikidataInfo
  requests : List String
deriving DecidableEq, Repr

/-- `get_wikidata_info` (lines 21-54).  `p1` is the parsed phase-1 response
(`none` when the request raised); `idsS`/`respS` and `idsC`/`respC` are the
set-order and response oracles of the two `extract_entity_labels` calls (for
P149 architectural styles and P17 countries respectively).  An
`AttributeError` escaping `extract_entity_labels` is caught by this
function's `except` and yields `{}`. -/
def get_wikidata_info (wikidata_id : String) (p1 : Option P1Resp)
    (idsS idsC : List String) (respS respC : Option LabelsResponse) : KGResult :=
  if wikidata_id = "" then ⟨none, []⟩
  else
    match p1 with
    | none => ⟨none, [wikidata_id]⟩
    | some r =>
      if r.status ≠ 200 then ⟨none, [wikidata_id]⟩
      else
        let ed := r.entity?.getD EntityData.empty
        match extract_entity_labels ed.p149 idsS respS with
        | Except.error _ => ⟨none, [wikidata_id]⟩
        | Except.ok sf =>
          match extract_entity_labels ed.p17 idsC respC with
          | Except.error _ => ⟨none, [wikidata_id] ++ sf.requests⟩
          | Except.ok cf =>
            ⟨some ⟨ed.descEn?.getD "", extract_claim_value ed.p571 false,
                   sf.labels, cf.labels, extract_claim_value ed.p856 true⟩,
             [wikidata_id] ++ sf.requests ++ cf.requests⟩

/-- The fields of the Wikipedia summary JSON the source reads. -/
structure WikiData where
  extract? : Option String
  wikibase_item? : Option String
  description? : Option String
  desktopPage? : Option String
deriving DecidableEq, Repr

/-- Parsed response of the Wikipedia summary request. -/
structure WikiResp where
  status : Nat
  data : WikiData
deriving DecidableEq, Repr

/-- The `address` object of the reverse-geocoding response, with the status
code of the response. -/
structure GeoResp where
  status : Nat
  country? : Option String
  city? : Option String
  town? : Option String
  village? : Option String
deriving DecidableEq, Repr

/-- The dictionary returned by a successful `get_location_details`. -/
structure GeoFrag where
  country? : Option String
  city? : Option String
deriving DecidableEq, Repr

/-- Python `a or b` restricted to string-or-None operands: `a` unless it is
falsy (None or the empty string). -/
def pyOr (a b : Option String) : Option String :=
  match a with
  | some s => if s = "" then b else some s
  | none => b

/-- Python `a or d` with a final non-optional default. -/
def pyOrD (a : Option String) (d : String) : String :=
  match a with
  | some s => if s = "" then d else s
  | none => d

/-- `get_location_details` (lines 101-115): `none` models the `{}` returned
on a raised request or a non-200 status; on 200 it returns the country and
the city-town-village fallback chain. -/
def get_location_details (geo : Option GeoResp) : Option GeoFrag :=
  match geo with
  | none => none
  | some r =>
    if r.status = 200 then some ⟨r.country?, pyOr (pyOr r.city? r.town?) r.village?⟩
    else none

/-- All request-scoped inputs of the enrichment part of `analyze_image`
(lines 132-182): the detector's output and the response oracles of every
outbound request the code may issue. -/
structure Env where
  landmark_name : String
  locations : List Coord
  wiki : Option WikiResp
  p1 : Option P1Resp
  idsS : List String
  idsC : List String
  respS : Option LabelsResponse
  respC : Option LabelsResponse
  geo : Option GeoResp

/-- `wiki_data` after lines 138-147: the parsed summary JSON on a 200
response, otherwise the initial `{}` (modelled as `none`). -/
def wikiDataOf (e : Env) : Option WikiData :=
  match e.wiki with
  | some r => if r.status = 200 then some r.data else none
  | none => none

/-- `wikidata_id = wiki_data.get("wikibase_item")` (line 150). -/
def wikidataIdOf (e : Env) : Option String :=
  (wikiDataOf e).bind (fun d => d.wikibase_item?)

/-- `get_wikidata_info(wikidata_id) if wikidata_id else {}` (line 151);
Python truthiness makes both a missing and an empty id skip the call. -/
def kgOf (e : Env) : KGResult :=
  match wikidataIdOf e with
  | some q =>
    if q = "" then ⟨none, []⟩
    else get_wikidata_info q e.p1 e.idsS e.idsC e.respS e.respC
  | none => ⟨none, []⟩

/-- `wikidata_info` as a dictionary: `none` is the empty dict. -/
def kgInfoOf (e : Env) : Option WikidataInfo := (kgOf e).info?

/-- The `location_details` dictionary after lines 154-162: `{}` (modelled
`none`) when there is no candidate location, otherwise coordinates, the
spread of `get_location_details`, and the Google Maps link. -/
structure LocFields where
  coordinates : Coord
  geo? : Option GeoFrag
  maps_link : String
deriving DecidableEq, Repr

/-- Line 162: `f"https://maps.google.com/?q={lat},{lon}"`. -/
def mapsLink (c : Coord) : String :=
  "https://maps.google.com/?q=" ++ c.latitude ++ "," ++ c.longitude

/-- `location_details` (lines 154-162). -/
def locationDetailsOf (e : Env) : Option LocFields :=
  match e.locations with
  | [] => none
  | c :: _ => some ⟨c, get_location_details e.geo, mapsLink c⟩

/-- Line 167: `wikidata_info.get("description") or wiki_data.get("extract")
or "No description available"`. -/
def descriptionOf (e : Env) : String :=
  pyOrD (pyOr ((kgInfoOf e).map (fun i => i.description))
              ((wikiDataOf e).bind (fun d => d.extract?)))
        "No description available"

/-- A JSON value, as produced by `jsonify(result)`.  Numbers are abstracted
by their decimal renderings. -/
inductive Json where
  | null
  | str (s : String)
  | num (rendering : String)
  | arr (xs : List Json)
  | obj (fields : List (String × Json))

/-- Key lookup in a JSON object (the members of each object built by the
source have pairwise distinct keys). -/
def jLookup (j : Json) (k : String) : Option Json :=
  match j with
  | Json.obj fs => List.lookup k fs
  | _ => none

/-- A Python string-or-None value serialized to JSON. -/
def optJson : Option String → Json
  | some s => Json.str s
  | none => Json.null

/-- A claim value serialized to JSON (object contents other than the members
the source reads are abstracted away). -/
def dvJson : DV → Json
  | DV.vstr s => Json.str s
  | DV.vtime t => Json.obj [("time", Json.str t)]
  | DV.vid i => Json.obj [("id", Json.str i)]
  | DV.vdictOther => Json.obj []

/-- An optional claim value serialized to JSON. -/
def dvOptJson : Option DV → Json
  | some v => dvJson v
  | none => Json.null

/-- The `loc` coordinate dictionary serialized to JSON. -/
def coordJson (c : Coord) : Json :=
  Json.obj [("latitude", Json.num c.latitude), ("longitude", Json.num c.longitude)]

/-- The serialized `location` member of the result (always emitted; the
empty object when `location_details` is `{}`). -/
def locationJson (e : Env) : Json :=
  match locationDetailsOf e with
  | none => Json.obj []
  | some f =>
    Json.obj ([("coordinates", coordJson f.coordinates)] ++
      (match f.geo? with
       | some g => [("country", optJson g.country?), ("city", optJson g.city?)]
       | none => []) ++
      [("maps_link", Json.str f.maps_link)])

/-- The `architectural_styles` member of `historical_context`:
`wikidata_info.get("architectural_styles")` is a list when the info dict was
built and `None` when it is the empty dict. -/
def stylesJson (e : Env) : Json :=
  match kgInfoOf e with
  | some i => Json.arr (i.architectural_styles.map Json.str)
  | none => Json.null

/-- The serialized `historical_context` member (lines 168-172). -/
def historicalContextJson (e : Env) : Json :=
  Json.obj [
    ("inception_date", dvOptJson ((kgInfoOf e).bind (fun i => i.inception_date))),
    ("architectural_styles", stylesJson e),
    ("significance", optJson ((wikiDataOf e).bind (fun d => d.description?)))]

/-- Line 177: `f"https://www.wikidata.org/wiki/{wikidata_id}" if wikidata_id
else None`. -/
def wikidataRef (e : Env) : Json :=
  match wikidataIdOf e with
  | some q =>
    if q = "" then Json.null
    else Json.str ("https://www.wikidata.org/wiki/" ++ q)
  | none => Json.null

/-- Line 178: `location_details.get("maps_link")`. -/
def googleMapsRef (e : Env) : Json :=
  match locationDetailsOf e with
  | some f => Json.str f.maps_link
  | none => Json.null

/-- The serialized `references` member (lines 175-179). -/
def referencesJson (e : Env) : Json :=
  Json.obj [
    ("wikipedia", optJson ((wikiDataOf e).bind (fun d => d.desktopPage?))),
    ("wikidata", wikidataRef e),
    ("google_maps", googleMapsRef e)]

/-- The serialized `result` dictionary (lines 165-180). -/
def analyze_result (e : Env) : Json :=
  Json.obj [
    ("name", Json.str e.landmark_name),
    ("description", Json.str (descriptionOf e)),
    ("historical_context", historicalContextJson e),
    ("location", locationJson e),
    ("official_website", dvOptJson ((kgInfoOf e).bind (fun i => i.official_website))),
    ("references", referencesJson e)]

end ImagePy

namespace ImagePy

/-! ### Helper lemmas -/

lemma lookup_description (e : Env) :
    jLookup (analyze_result e) "description" = some (Json.str (descriptionOf e)) := rfl

lemma lookup_location (e : Env) :
    jLookup (analyze_result e) "location" = some (locationJson e) := rfl

lemma lookup_refs_gm (e : Env) :
    (jLookup (analyze_result e) "references").bind (fun j => jLookup j "google_maps") =
      some (googleMapsRef e) := rfl

lemma lookup_refs_wd (e : Env) :
    (jLookup (analyze_result e) "references").bind (fun j => jLookup j "wikidata") =
      some (wikidataRef e) := rfl

lemma lookup_hist_styles (e : Env) :
    (jLookup (analyze_result e) "historical_context").bind
      (fun j => jLookup j "architectural_styles") = some (stylesJson e) := rfl

lemma wikiDataOf_fail (e : Env)
    (hf : e.wiki = none ∨ ∃ r : WikiResp, e.wiki = some r ∧ r.status ≠ 200) :
    wikiDataOf e = none := by
  rcases hf with h | ⟨r, h, hs⟩
  · simp [wikiDataOf, h]
  · simp [wikiDataOf, h, hs]

lemma get_location_details_fail (g : Option GeoResp)
    (hf : g = none ∨ ∃ r : GeoResp, g = some r ∧ r.status ≠ 200) :
    get_location_details g = none := by
  rcases hf with h | ⟨r, h, hs⟩
  · simp [get_location_details, h]
  · simp [get_location_details, h, hs]

lemma extract_eq_of_nil_ids (claims : List Claim) (resp : Option LabelsResponse)
    (hraise : claims.any claimRefIdRaises = false) :
    extract_entity_labels claims [] resp = Except.ok ⟨[], []⟩ := by
  simp [extract_entity_labels, hraise]

lemma extract_eq_of_ok (claims : List Claim) (ids : List String) (r : LabelsResponse)
    (hc : claims.isEmpty = false) (hraise : claims.any claimRefIdRaises = false)
    (hi : ids.isEmpty = false) (h200 : r.status = 200) :
    extract_entity_labels claims ids (some r) =
      Except.ok ⟨ids.map (lookupLabel r.entities), [String.intercalate "|" ids]⟩ := by
  simp [extract_entity_labels, hc, hraise, hi, h200]

lemma ids_nil_of_claims_nil (claims : List Claim) (ids : List String)
    (hperm : ids.Perm (pyDistinct claims)) (hc : claims.isEmpty = true) : ids = [] := by
  have hcl : claims = [] := List.isEmpty_iff.mp hc
  subst hcl
  exact hperm.eq_nil

lemma lookupLabel_eq_self (entries : List LabelEntry) (eid : String)
    (h : ∀ en ∈ entries, en.qid = eid → en.enLabel? = none) :
    lookupLabel entries eid = eid := by
  unfold lookupLabel
  cases hfind : entries.reverse.find? (fun en => en.qid == eid) with
  | none => rfl
  | some en =>
    have hp := List.find?_some hfind
    have hqid : en.qid = eid := by simpa using hp
    have hmem : en ∈ entries := List.mem_reverse.mp (List.mem_of_find?_eq_some hfind)
    have hlab : en.enLabel? = none := h en hmem hqid
    simp [hlab, hqid]

lemma takeWhile_head_eq (p : Char → Bool) (l : List Char) (a : Char)
    (h : (l.takeWhile p).head? = some a) : l.head? = some a := by
  cases l with
  | nil => simp [List.takeWhile] at h
  | cons x xs =>
    rw [List.takeWhile_cons] at h
    by_cases hx : p x
    · simp [hx] at h
      simp [h]
    · simp [hx] at h

lemma dropWhile_head_false (p : Char → Bool) (l : List Char) (a : Char)
    (h : (l.dropWhile p).head? = some a) : p a = false := by
  induction l with
  | nil => simp [List.dropWhile] at h
  | cons x xs ih =>
    rw [List.dropWhile_cons] at h
    by_cases hx : p x
    · rw [if_pos hx] at h
      exact ih h
    · rw [if_neg hx] at h
      have : x = a := by simpa using h
      subst this
      simpa using hx

end ImagePy

namespace ImagePy

/-! ### Claim theorems -/

/-- C1: the output `description` is chosen by precedence: the Wikidata
description when present (non-empty), else the Wikipedia `extract` when
present (non-empty), else the fixed sentinel `"No description available"`;
a present Wikidata description is used verbatim whatever the extract is. -/
theorem C1_description_precedence (e : Env) :
    (∀ d : String, (kgInfoOf e).map (fun i => i.description) = some d → d ≠ "" →
      jLookup (analyze_result e) "description" = some (Json.str d)) ∧
    (∀ x : String,
      ((kgInfoOf e).map (fun i => i.description) = none ∨
       (kgInfoOf e).map (fun i => i.description) = some "") →
      (wikiDataOf e).bind (fun d => d.extract?) = some x → x ≠ "" →
      jLookup (analyze_result e) "description" = some (Json.str x)) ∧
    (((kgInfoOf e).map (fun i => i.description) = none ∨
      (kgInfoOf e).map (fun i => i.description) = some "") →
     ((wikiDataOf e).bind (fun d => d.extract?) = none ∨
      (wikiDataOf e).bind (fun d => d.extract?) = some "") →
      jLookup (analyze_result e) "description" =
        some (Json.str "No description available")) := by
  refine ⟨?_, ?_, ?_⟩
  · intro d hd hne
    rw [lookup_description]
    simp [descriptionOf, hd, pyOr, pyOrD, hne]
  · intro x hkg hx hxne
    rw [lookup_description]
    rcases hkg with h | h
    · simp [descriptionOf, h, hx, pyOr, pyOrD, hxne]
    · simp [descriptionOf, h, hx, pyOr, pyOrD, hxne]
  · intro hkg hwx
    rw [lookup_description]
    rcases hkg with h | h <;> rcases hwx with h2 | h2 <;>
      simp [descriptionOf, h, h2, pyOr, pyOrD]

/-- Witness for C1 at a concrete run: the Wikidata description `"kg desc"`
wins over the differing Wikipedia extract `"wiki extract"`. -/
theorem C1_description_precedence_witness :
    (kgInfoOf ⟨"Tower", [], some ⟨200, ⟨some "wiki extract", some "Q1", none, none⟩⟩,
        some ⟨200, some ⟨some "kg desc", [], [], [], []⟩⟩, [], [], none, none,
        none⟩).map (fun i => i.description) = some "kg desc" ∧
    jLookup (analyze_result ⟨"Tower", [],
        some ⟨200, ⟨some "wiki extract", some "Q1", none, none⟩⟩,
        some ⟨200, some ⟨some "kg desc", [], [], [], []⟩⟩, [], [], none, none,
        none⟩) "description" = some (Json.str "kg desc") :=
  ⟨rfl, (C1_description_precedence _).1 "kg desc" rfl (by decide)⟩

/-- C2 counterexample: for the claims referencing Q2, Q1, Q2 (in that order),
`["Q1", "Q2"]` is a legitimate iteration order of the Python set of distinct
ids, and under it the output label sequence is not the first-occurrence-order
sequence `["Q2", "Q1"]` the claim requires (labels resolve to the raw ids
here, so the claimed output would be `["Q2", "Q1"]`). -/
theorem C2_counterexample :
    (["Q1", "Q2"] : List String).Perm
      (pyDistinct [⟨some (DV.vid "Q2")⟩, ⟨some (DV.vid "Q1")⟩, ⟨some (DV.vid "Q2")⟩]) ∧
    extract_entity_labels
        [⟨some (DV.vid "Q2")⟩, ⟨some (DV.vid "Q1")⟩, ⟨some (DV.vid "Q2")⟩]
        ["Q1", "Q2"] (some ⟨200, []⟩) =
      Except.ok ⟨["Q1", "Q2"], ["Q1|Q2"]⟩ ∧
    (["Q1", "Q2"] : List String) ≠
      (pyDistinct [⟨some (DV.vid "Q2")⟩, ⟨some (DV.vid "Q1")⟩,
        ⟨some (DV.vid "Q2")⟩]).map (lookupLabel []) :=
  ⟨by decide, rfl, by decide⟩

/-- C2 amended: on a successful follow-up response the resolved label
sequence is the de-duplicated sequence of the non-empty entity identifiers
referenced by the claims — in the implementation-defined iteration order of
a Python set (some permutation of the first-occurrence order, not
necessarily that order itself) — mapped 1:1 to resolved labels. -/
theorem C2_labels_map (claims : List Claim) (ids : List String) (r : LabelsResponse)
    (hperm : ids.Perm (pyDistinct claims))
    (hraise : claims.any claimRefIdRaises = false)
    (h200 : r.status = 200) :
    ∃ f : LabelFetch, extract_entity_labels claims ids (some r) = Except.ok f ∧
      f.labels = ids.map (lookupLabel r.entities) ∧
      f.labels.length = ids.length := by
  cases hc : claims.isEmpty with
  | true =>
    have hids : ids = [] := ids_nil_of_claims_nil claims ids hperm hc
    have hcl : claims = [] := List.isEmpty_iff.mp hc
    subst hids; subst hcl
    exact ⟨⟨[], []⟩, rfl, rfl, rfl⟩
  | false =>
    cases hi : ids.isEmpty with
    | true =>
      have hids : ids = [] := List.isEmpty_iff.mp hi
      subst hids
      exact ⟨⟨[], []⟩, extract_eq_of_nil_ids claims (some r) hraise, rfl, rfl⟩
    | false =>
      refine ⟨⟨ids.map (lookupLabel r.entities), [String.intercalate "|" ids]⟩,
        extract_eq_of_ok claims ids r hc hraise hi h200, rfl, ?_⟩
      simp

/-- Witness for C2 amended at a concrete run. -/
theorem C2_labels_map_witness :
    (["Q1", "Q2"] : List String).Perm
      (pyDistinct [⟨some (DV.vid "Q2")⟩, ⟨some (DV.vid "Q1")⟩, ⟨some (DV.vid "Q2")⟩]) ∧
    ∃ f : LabelFetch,
      extract_entity_labels
          [⟨some (DV.vid "Q2")⟩, ⟨some (DV.vid "Q1")⟩, ⟨some (DV.vid "Q2")⟩]
          ["Q1", "Q2"] (some ⟨200, [⟨"Q1", some "labelled one"⟩]⟩) = Except.ok f ∧
      f.labels = (["Q1", "Q2"] : List String).map
        (lookupLabel [⟨"Q1", some "labelled one"⟩]) ∧
      f.labels.length = (["Q1", "Q2"] : List String).length :=
  ⟨by decide, C2_labels_map _ _ _ (by decide) (by decide) rfl⟩

/-- C3 counterexample: one architectural-style reference and one country
reference make the knowledge-graph protocol cost 3 round trips (one entity
fetch plus one follow-up per property), not exactly 2 as claimed. -/
theorem C3_counterexample :
    (get_wikidata_info "Q1"
        (some ⟨200, some ⟨none, [], [⟨some (DV.vid "Q5")⟩], [⟨some (DV.vid "Q6")⟩], []⟩⟩)
        ["Q5"] ["Q6"] (some ⟨200, []⟩) (some ⟨200, []⟩)).requests = ["Q1", "Q5", "Q6"] ∧
    (["Q5"] : List String).Perm (pyDistinct [⟨some (DV.vid "Q5")⟩]) ∧
    (["Q6"] : List String).Perm (pyDistinct [⟨some (DV.vid "Q6")⟩]) ∧
    (get_wikidata_info "Q1"
        (some ⟨200, some ⟨none, [], [⟨some (DV.vid "Q5")⟩], [⟨some (DV.vid "Q6")⟩], []⟩⟩)
        ["Q5"] ["Q6"] (some ⟨200, []⟩) (some ⟨200, []⟩)).requests.length ≠ 2 :=
  ⟨rfl, by decide, by decide, by decide⟩

/-- C3 amended: each label-resolution call issues exactly one follow-up
request, its ids pipe-joined, regardless of how many distinct identifiers
are referenced (N ≥ 1), and resolution is deterministic — the same
identifiers against the same response yield the same ordered label
sequence.  The whole knowledge-graph protocol, however, costs up to 3 round
trips (one entity fetch plus one follow-up for each of the two
reference-valued properties), not exactly 2. -/
theorem C3_single_followup (claims : List Claim) (ids : List String)
    (resp : Option LabelsResponse)
    (hperm : ids.Perm (pyDistinct claims))
    (hraise : claims.any claimRefIdRaises = false)
    (hne : ids ≠ []) :
    (∃ f : LabelFetch, extract_entity_labels claims ids resp = Except.ok f ∧
      f.requests = [String.intercalate "|" ids]) ∧
    (∀ f g : LabelFetch, extract_entity_labels claims ids resp = Except.ok f →
      extract_entity_labels claims ids resp = Except.ok g → f.labels = g.labels) := by
  constructor
  · have hc : claims.isEmpty = false := by
      cases hc : claims.isEmpty with
      | true => exact absurd (ids_nil_of_claims_nil claims ids hperm hc) hne
      | false => rfl
    have hi : ids.isEmpty = false := by
      cases hi : ids.isEmpty with
      | true => exact absurd (List.isEmpty_iff.mp hi) hne
      | false => rfl
    match resp with
    | none =>
      refine ⟨⟨[], [String.intercalate "|" ids]⟩, ?_, rfl⟩
      simp [extract_entity_labels, hc, hraise, hi]
    | some r =>
      by_cases h200 : r.status = 200
      · exact ⟨⟨ids.map (lookupLabel r.entities), [String.intercalate "|" ids]⟩,
          extract_eq_of_ok claims ids r hc hraise hi h200, rfl⟩
      · refine ⟨⟨[], [String.intercalate "|" ids]⟩, ?_, rfl⟩
        simp [extract_entity_labels, hc, hraise, hi, h200]
  · intro f g hf hg
    rw [hf] at hg
    cases hg
    rfl

/-- Witness for C3 amended at a concrete run with N = 3 referenced ids. -/
theorem C3_single_followup_witness :
    (["Q5", "Q7", "Q6"] : List String).Perm
      (pyDistinct [⟨some (DV.vid "Q5")⟩, ⟨some (DV.vid "Q6")⟩, ⟨some (DV.vid "Q7")⟩]) ∧
    ∃ f : LabelFetch,
      extract_entity_labels
          [⟨some (DV.vid "Q5")⟩, ⟨some (DV.vid "Q6")⟩, ⟨some (DV.vid "Q7")⟩]
          ["Q5", "Q7", "Q6"] (some ⟨200, []⟩) = Except.ok f ∧
      f.requests = [String.intercalate "|" ["Q5", "Q7", "Q6"]] :=
  ⟨by decide,
   (C3_single_followup _ _ _ (by decide) (by decide) (by decide)).1⟩

/-- C4 counterexample: a date raw value with a leading minus sign keeps that
sign — the projection strips only plus characters, so the claim that a
leading sign character is stripped fails on `"-1889-03-31T00:00:00Z"`. -/
theorem C4_counterexample :
    extract_claim_value [⟨some (DV.vtime "-1889-03-31T00:00:00Z")⟩] false =
      some (DV.vstr "-1889-03-31") ∧
    ("-1889-03-31").data.head? = some '-' :=
  ⟨rfl, rfl⟩

/-- C4 amended: date projection strips leading plus characters (a leading
minus is kept) and drops everything from the first `T` on, keeping only the
calendar date; in particular `"+1889-03-31T00:00:00Z"` projects to
`"1889-03-31"`. -/
theorem C4_date_projection (t : String) (rest : List Claim) :
    extract_claim_value (⟨some (DV.vtime t)⟩ :: rest) false =
      some (DV.vstr (projectTime t)) ∧
    (projectTime t).data.head? ≠ some '+' ∧
    (∀ ch ∈ (projectTime t).data, ch ≠ 'T') ∧
    projectTime "+1889-03-31T00:00:00Z" = "1889-03-31" := by
  refine ⟨rfl, ?_, ?_, rfl⟩
  · intro h
    have h1 : ((lstripPlus t).data.takeWhile (fun c => c != 'T')).head? = some '+' := h
    have h2 : (lstripPlus t).data.head? = some '+' :=
      takeWhile_head_eq (fun c => c != 'T') (lstripPlus t).data '+' h1
    have h3 : (t.data.dropWhile (fun c => c == '+')).head? = some '+' := h2
    have h4 := dropWhile_head_false (fun c => c == '+') t.data '+' h3
    simp at h4
  · intro ch hch
    have h1 : ch ∈ (lstripPlus t).data.takeWhile (fun c => c != 'T') := hch
    have h2 := List.mem_takeWhile_imp h1
    simpa using h2

end ImagePy

namespace ImagePy

/-- C5 counterexample: with no candidate locations the serialized record's
`location` member is present as the empty object (not absent), and
`references.google_maps` is present with value `null` (not absent). -/
theorem C5_counterexample :
    jLookup (analyze_result ⟨"X", [], none, none, [], [], none, none, none⟩)
      "location" = some (Json.obj []) ∧
    jLookup (analyze_result ⟨"X", [], none, none, [], [], none, none, none⟩)
      "location" ≠ none ∧
    (jLookup (analyze_result ⟨"X", [], none, none, [], [], none, none, none⟩)
      "references").bind (fun j => jLookup j "google_maps") = some Json.null ∧
    (jLookup (analyze_result ⟨"X", [], none, none, [], [], none, none, none⟩)
      "references").bind (fun j => jLookup j "google_maps") ≠ none := by
  refine ⟨rfl, ?_, rfl, ?_⟩
  · intro h
    exact Option.noConfusion h
  · intro h
    exact Option.noConfusion h

/-- C5 amended: for every detection whose candidate-location sequence is
empty, the output record's `location` member is the empty JSON object (the
key itself is still emitted) and `references.google_maps` is `null` (the key
itself is still emitted). -/
theorem C5_empty_location (e : Env) (h : e.locations = []) :
    jLookup (analyze_result e) "location" = some (Json.obj []) ∧
    (jLookup (analyze_result e) "references").bind
      (fun j => jLookup j "google_maps") = some Json.null := by
  have hld : locationDetailsOf e = none := by simp [locationDetailsOf, h]
  constructor
  · rw [lookup_location]
    simp [locationJson, hld]
  · rw [lookup_refs_gm]
    simp [googleMapsRef, hld]

/-- Witness for C5 amended at a concrete run. -/
theorem C5_empty_location_witness :
    (⟨"Arc", [], none, none, [], [], none, none,
      some ⟨200, some "FR", none, none, none⟩⟩ : Env).locations = [] ∧
    jLookup (analyze_result ⟨"Arc", [], none, none, [], [], none, none,
      some ⟨200, some "FR", none, none, none⟩⟩) "location" = some (Json.obj []) :=
  ⟨rfl, (C5_empty_location _ rfl).1⟩

/-- C6: with at least one candidate coordinate and a failed reverse-geocoding
call (raised request or non-200 status such as 503), the output `location`
still carries `coordinates` and `maps_link`, both derived purely from the
input coordinate (`maps_link` is the Google Maps URL built from it), while
the `country` and `city` keys are absent. -/
theorem C6_geocode_failure (e : Env) (c : Coord) (rest : List Coord)
    (hloc : e.locations = c :: rest)
    (hfail : e.geo = none ∨ ∃ r : GeoResp, e.geo = some r ∧ r.status ≠ 200) :
    jLookup (analyze_result e) "location" =
      some (Json.obj [("coordinates", coordJson c),
                      ("maps_link", Json.str (mapsLink c))]) ∧
    (jLookup (analyze_result e) "location").bind (fun j => jLookup j "country") = none ∧
    (jLookup (analyze_result e) "location").bind (fun j => jLookup j "city") = none ∧
    mapsLink c = "https://maps.google.com/?q=" ++ c.latitude ++ "," ++ c.longitude := by
  have hgd : get_location_details e.geo = none := get_location_details_fail e.geo hfail
  have hld : locationDetailsOf e = some ⟨c, none, mapsLink c⟩ := by
    simp [locationDetailsOf, hloc, hgd]
  have h1 : jLookup (analyze_result e) "location" =
      some (Json.obj [("coordinates", coordJson c),
                      ("maps_link", Json.str (mapsLink c))]) := by
    rw [lookup_location]
    simp [locationJson, hld]
  refine ⟨h1, ?_, ?_, rfl⟩
  · rw [h1]
    rfl
  · rw [h1]
    rfl

/-- Witness for C6 at a concrete run with a 503 geocoding response. -/
theorem C6_geocode_failure_witness :
    (⟨"Tower", [⟨"48.8584", "2.2945"⟩], none, none, [], [], none, none,
      some ⟨503, none, none, none, none⟩⟩ : Env).locations = [⟨"48.8584", "2.2945"⟩] ∧
    jLookup (analyze_result ⟨"Tower", [⟨"48.8584", "2.2945"⟩], none, none, [], [],
        none, none, some ⟨503, none, none, none, none⟩⟩) "location" =
      some (Json.obj [("coordinates", coordJson ⟨"48.8584", "2.2945"⟩),
        ("maps_link", Json.str "https://maps.google.com/?q=48.8584,2.2945")]) :=
  ⟨rfl,
   (C6_geocode_failure _ ⟨"48.8584", "2.2945"⟩ [] rfl
      (Or.inr ⟨⟨503, none, none, none, none⟩, rfl, by decide⟩)).1⟩

/-- C7: a referenced identifier whose follow-up response entry carries no
English label — which also covers the identifier not appearing in the
response at all — yields the raw identifier string at that identifier's
position of the output label sequence, never an omission. -/
theorem C7_raw_id_fallback (claims : List Claim) (ids : List String)
    (r : LabelsResponse)
    (hperm : ids.Perm (pyDistinct claims))
    (hraise : claims.any claimRefIdRaises = false)
    (h200 : r.status = 200)
    (i : Nat) (eid : String) (hi : ids[i]? = some eid)
    (hmiss : ∀ en ∈ r.entities, en.qid = eid → en.enLabel? = none) :
    ∃ f : LabelFetch, extract_entity_labels claims ids (some r) = Except.ok f ∧
      f.labels[i]? = some eid := by
  have hc : claims.isEmpty = false := by
    cases hc : claims.isEmpty with
    | true =>
      have : ids = [] := ids_nil_of_claims_nil claims ids hperm hc
      rw [this] at hi
      exact absurd hi (by simp)
    | false => rfl
  have hine : ids.isEmpty = false := by
    cases hie : ids.isEmpty with
    | true =>
      have : ids = [] := List.isEmpty_iff.mp hie
      rw [this] at hi
      exact absurd hi (by simp)
    | false => rfl
  refine ⟨⟨ids.map (lookupLabel r.entities), [String.intercalate "|" ids]⟩,
    extract_eq_of_ok claims ids r hc hraise hine h200, ?_⟩
  have : (ids.map (lookupLabel r.entities))[i]? =
      ids[i]?.map (lookupLabel r.entities) := List.getElem?_map _ _ _
  rw [this, hi]
  simp [lookupLabel_eq_self r.entities eid hmiss]

/-- Witness for C7 at a concrete run: Q1 appears in the response without an
English label, Q2 does not appear; both fall back to the raw id. -/
theorem C7_raw_id_fallback_witness :
    (["Q2", "Q1"] : List String).Perm
      (pyDistinct [⟨some (DV.vid "Q1")⟩, ⟨some (DV.vid "Q2")⟩]) ∧
    (["Q2", "Q1"] : List String)[1]? = some "Q1" ∧
    ∃ f : LabelFetch,
      extract_entity_labels [⟨some (DV.vid "Q1")⟩, ⟨some (DV.vid "Q2")⟩]
          ["Q2", "Q1"] (some ⟨200, [⟨"Q1", none⟩]⟩) = Except.ok f ∧
      f.labels[1]? = some "Q1" :=
  ⟨by decide, rfl,
   C7_raw_id_fallback _ _ _ (by decide) (by decide) rfl 1 "Q1" rfl (by decide)⟩

/-- C8: when the Wikipedia request raises or returns a non-200 status,
`wiki_data` stays the all-unknown empty summary rather than a propagated
fault, the knowledge-graph phase is skipped, and the output still carries a
valid description — the fixed sentinel string. -/
theorem C8_wiki_failure (e : Env)
    (hf : e.wiki = none ∨ ∃ r : WikiResp, e.wiki = some r ∧ r.status ≠ 200) :
    wikiDataOf e = none ∧ kgInfoOf e = none ∧
    jLookup (analyze_result e) "description" =
      some (Json.str "No description available") := by
  have hwd : wikiDataOf e = none := wikiDataOf_fail e hf
  have hid : wikidataIdOf e = none := by simp [wikidataIdOf, hwd]
  have hkg : kgInfoOf e = none := by simp [kgInfoOf, kgOf, hid]
  refine ⟨hwd, hkg, ?_⟩
  rw [lookup_description]
  simp [descriptionOf, hkg, hwd, pyOr, pyOrD]

/-- Witness for C8 at a concrete run with a timed-out Wikipedia request. -/
theorem C8_wiki_failure_witness :
    (⟨"Atlantis", [], none, none, [], [], none, none, none⟩ : Env).wiki = none ∧
    jLookup (analyze_result ⟨"Atlantis", [], none, none, [], [], none, none, none⟩)
      "description" = some (Json.str "No description available") :=
  ⟨rfl, (C8_wiki_failure _ (Or.inl rfl)).2.2⟩

/-- C9 counterexample: when the phase-1 Wikidata fetch raises, the entity
dict is `{}` — not a fully unknown entity of the same field shape — so the
output's `historical_context.architectural_styles` is `null`, not the empty
sequence the claim requires. -/
theorem C9_counterexample :
    (jLookup (analyze_result ⟨"X", [],
        some ⟨200, ⟨none, some "Q1", none, none⟩⟩, none, [], [], none, none, none⟩)
      "historical_context").bind (fun j => jLookup j "architectural_styles") =
      some Json.null ∧
    Json.null ≠ Json.arr [] := by
  refine ⟨rfl, ?_⟩
  intro h
  exact Json.noConfusion h

/-- C9 amended: on a successful phase-1 fetch, a property with no claims
yields the empty sequence (multi-valued fields) or an unknown value
(single-valued fields) and every field of the info record is present; but a
phase-1 transport failure yields the EMPTY record — no fields at all — so
the output's `historical_context.architectural_styles` is `null`, not an
empty sequence, whenever the fetch fails; and a failure of a phase-2 label
request empties only the affected multi-valued field, leaving the other
fields populated rather than fully unknown. -/
theorem C9_field_shape :
    (∀ q : String, q ≠ "" → ∀ desc : Option String,
      get_wikidata_info q (some ⟨200, some ⟨desc, [], [], [], []⟩⟩) [] [] none none =
        ⟨some ⟨desc.getD "", none, [], [], none⟩, [q]⟩) ∧
    (∀ q : String, q ≠ "" →
      ∀ (idsS idsC : List String) (rS rC : Option LabelsResponse),
      get_wikidata_info q none idsS idsC rS rC = ⟨none, [q]⟩) ∧
    (∀ q : String, q ≠ "" → ∀ d : String,
      get_wikidata_info q
          (some ⟨200, some ⟨some d, [], [⟨some (DV.vid "Q9")⟩], [], []⟩⟩)
          ["Q9"] [] none none =
        ⟨some ⟨d, none, [], [], none⟩, [q, "Q9"]⟩) ∧
    (∀ e : Env, kgInfoOf e = none →
      (jLookup (analyze_result e) "historical_context").bind
        (fun j => jLookup j "architectural_styles") = some Json.null) := by
  refine ⟨?_, ?_, ?_, ?_⟩
  · intro q hq desc
    unfold get_wikidata_info
    rw [if_neg hq]
    rfl
  · intro q hq idsS idsC rS rC
    unfold get_wikidata_info
    rw [if_neg hq]
  · intro q hq d
    unfold get_wikidata_info
    rw [if_neg hq]
    rfl
  · intro e hkg
    rw [lookup_hist_styles]
    simp [stylesJson, hkg]

/-- Witness for C9 amended at concrete runs: a failed fetch gives the empty
record, a successful fetch of a claim-less entity gives the fully shaped
record. -/
theorem C9_field_shape_witness :
    ("Q1" : String) ≠ "" ∧
    get_wikidata_info "Q1" none [] [] none none = ⟨none, ["Q1"]⟩ ∧
    get_wikidata_info "Q1" (some ⟨200, some ⟨some "a town", [], [], [], []⟩⟩)
        [] [] none none =
      ⟨some ⟨"a town", none, [], [], none⟩, ["Q1"]⟩ :=
  ⟨by decide, C9_field_shape.2.1 "Q1" (by decide) [] [] none none,
   C9_field_shape.1 "Q1" (by decide) (some "a town")⟩

/-- C10: `references.wikidata` is the Wikidata URL of the `wikibase_item`
identifier exactly when the (successful) encyclopedia response carried a
non-empty one — independent of the knowledge-graph oracles — and is `null`
otherwise. -/
theorem C10_wikidata_reference (e : Env) :
    (∀ q : String, wikidataIdOf e = some q → q ≠ "" →
      (jLookup (analyze_result e) "references").bind (fun j => jLookup j "wikidata") =
        some (Json.str ("https://www.wikidata.org/wiki/" ++ q))) ∧
    ((wikidataIdOf e = none ∨ wikidataIdOf e = some "") →
      (jLookup (analyze_result e) "references").bind (fun j => jLookup j "wikidata") =
        some Json.null) ∧
    (∀ (p : Option P1Resp) (iS iC : List String) (rS rC : Option LabelsResponse),
      (jLookup (analyze_result ⟨e.landmark_name, e.locations, e.wiki, p, iS, iC,
          rS, rC, e.geo⟩) "references").bind (fun j => jLookup j "wikidata") =
        (jLookup (analyze_result e) "references").bind (fun j => jLookup j "wikidata")) := by
  refine ⟨?_, ?_, ?_⟩
  · intro q hq hne
    rw [lookup_refs_wd]
    simp [wikidataRef, hq, hne]
  · intro h
    rw [lookup_refs_wd]
    rcases h with h | h <;> simp [wikidataRef, h]
  · intro p iS iC rS rC
    rw [lookup_refs_wd, lookup_refs_wd]
    rfl

/-- Witness for C10 at a concrete run whose knowledge-graph fetch raised:
the reference URL is built regardless. -/
theorem C10_wikidata_reference_witness :
    wikidataIdOf ⟨"Tower", [], some ⟨200, ⟨none, some "Q42", none, none⟩⟩,
      none, [], [], none, none, none⟩ = some "Q42" ∧
    (jLookup (analyze_result ⟨"Tower", [], some ⟨200, ⟨none, some "Q42", none, none⟩⟩,
        none, [], [], none, none, none⟩) "references").bind
      (fun j => jLookup j "wikidata") =
      some (Json.str "https://www.wikidata.org/wiki/Q42") :=
  ⟨rfl, (C10_wikidata_reference _).1 "Q42" rfl (by decide)⟩

end ImagePy
